import Mathlib

/-!
# Verification of the Blue Pixel AI chat service core (`src/services/aiService.js`)

Shallow embedding of the message-processing pipeline of the `AIService`
class: the numeric extractor, the relevance gate, the keyword classifier,
the four computing tools (basic mortgage, advanced mortgage, financial
calculator, interest-rate lookup), the per-tool execution loop and the
response composer `processMessage`.

Modelling conventions:
* JavaScript numbers are modelled as exact rationals (`ℚ`).  Every numeric
  value the verified claims touch is either exactly representable or far
  from any rounding boundary, so IEEE-754 double rounding never changes a
  rounded-to-cents output below.
* JavaScript strings are `List Char`; `String.prototype.includes` is list
  infix, `toLowerCase` is `Char.toLower` mapped over the list.
* The external OpenAI completion endpoint, the wall clock and the
  possibility of a tool invocation throwing are captured by an explicit
  environment (`Env`): the completion call and each tool implementation
  return `Except Unit _`, where `Except.error` models a thrown/rejected
  JavaScript promise.
* `Math.round x` is `⌊x + 1/2⌋` (exact on the rationals reached here).
-/

/-! ## Characters, lower-casing and substring containment -/

/-- `message.toLowerCase()` on the character-list model of a string. -/
def lower (s : List Char) : List Char := s.map Char.toLower

/-- `text.includes(keyword)` — substring containment of the keyword in the
text (`text` is already a `List Char`; keywords are string literals). -/
def containsStr (text : List Char) (kw : String) : Bool :=
  decide (kw.toList <:+: text)

/-- `containsAny(text, keywords)` from the source:
`keywords.some(keyword => text.includes(keyword))`. -/
def containsAny (text : List Char) (keywords : List String) : Bool :=
  keywords.any (fun keyword => containsStr text keyword)

/-! ## The numeric extractor

`extractNumbers(message)` in the source is
`message.match(/\d+(?:,\d{3})*(?:\.\d+)?/g)` followed by
`parseFloat(num.replace(/,/g, ''))` over the matches.  The regex scan is
reproduced literally: at each position, a match must start with a digit;
it greedily takes a digit run, then zero or more groups of a comma
followed by exactly three digits, then an optional dot followed by a
nonempty greedy digit run; scanning resumes after the match. -/

/-- Greedy `\d+` / `\d*`: split off the leading digit run. -/
def takeDigits : List Char → List Char × List Char
  | [] => ([], [])
  | c :: cs =>
    if c.isDigit then
      let p := takeDigits cs
      (c :: p.1, p.2)
    else ([], c :: cs)

/-- Greedy `(?:,\d{3})*`: split off leading groups of a comma followed by
exactly three digits. -/
def takeCommaGroups : List Char → List Char × List Char
  | ',' :: a :: b :: c :: rest =>
    if a.isDigit && b.isDigit && c.isDigit then
      let p := takeCommaGroups rest
      (',' :: a :: b :: c :: p.1, p.2)
    else ([], ',' :: a :: b :: c :: rest)
  | l => ([], l)

/-- Greedy `(?:\.\d+)?`: split off a dot followed by a nonempty digit run,
if present. -/
def takeFrac : List Char → List Char × List Char
  | '.' :: c :: rest =>
    if c.isDigit then
      let p := takeDigits rest
      ('.' :: c :: p.1, p.2)
    else ([], '.' :: c :: rest)
  | l => ([], l)

theorem takeDigits_rest_length : ∀ l : List Char, (takeDigits l).2.length ≤ l.length := by
  intro l
  induction l with
  | nil => simp [takeDigits]
  | cons c cs ih =>
    simp only [takeDigits]
    split
    · simpa using Nat.le_succ_of_le ih
    · simp

theorem takeCommaGroups_rest_length :
    ∀ l : List Char, (takeCommaGroups l).2.length ≤ l.length := by
  intro l
  induction l using takeCommaGroups.induct with
  | case1 a b c rest hd ih =>
    simp only [takeCommaGroups, if_pos hd]
    simp only [List.length_cons]
    omega
  | case2 a b c rest hd =>
    simp [takeCommaGroups, hd]
  | case3 l hl =>
    rw [takeCommaGroups.eq_def]
    split
    · exact absurd rfl (fun h => hl _ _ _ _ h)
    · simp

theorem takeFrac_rest_length : ∀ l : List Char, (takeFrac l).2.length ≤ l.length := by
  intro l
  rw [takeFrac.eq_def]
  split
  next c rest =>
    split
    · have h := takeDigits_rest_length rest
      dsimp only
      simp only [List.length_cons]
      omega
    · simp
  next => simp

/-- One whole-match step of the regex at a position known to hold a digit:
the matched substring (digit run, comma groups, optional fraction) and the
remainder of the text after the match. -/
def matchStep (l : List Char) : List Char × List Char :=
  let d := takeDigits l
  let g := takeCommaGroups d.2
  let f := takeFrac g.2
  (d.1 ++ g.1 ++ f.1, f.2)

/-- Fueled worker for the global regex scan (the fuel is only a structural
termination device; `scanNumbers` supplies enough of it). -/
def scanNumbersAux : ℕ → List Char → List (List Char)
  | 0, _ => []
  | _ + 1, [] => []
  | fuel + 1, c :: cs =>
    if c.isDigit then
      let p := matchStep (c :: cs)
      p.1 :: scanNumbersAux fuel p.2
    else scanNumbersAux fuel cs

/-- The global regex scan: the list of matched substrings, in reading
order (`message.match(/\d+(?:,\d{3})*(?:\.\d+)?/g)`). -/
def scanNumbers (l : List Char) : List (List Char) := scanNumbersAux l.length l

theorem matchStep_rest_length (c : Char) (cs : List Char) (h : c.isDigit = true) :
    (matchStep (c :: cs)).2.length ≤ cs.length := by
  unfold matchStep
  dsimp only
  calc (takeFrac (takeCommaGroups (takeDigits (c :: cs)).2).2).2.length
      ≤ (takeCommaGroups (takeDigits (c :: cs)).2).2.length :=
        takeFrac_rest_length _
    _ ≤ (takeDigits (c :: cs)).2.length := takeCommaGroups_rest_length _
    _ ≤ cs.length := by
        simp only [takeDigits, if_pos h]
        exact takeDigits_rest_length cs

theorem scanNumbersAux_fuel :
    ∀ (fuel₁ fuel₂ : ℕ) (l : List Char), l.length ≤ fuel₁ → l.length ≤ fuel₂ →
      scanNumbersAux fuel₁ l = scanNumbersAux fuel₂ l := by
  intro fuel₁
  induction fuel₁ with
  | zero =>
    intro fuel₂ l h₁ _
    have : l = [] := List.eq_nil_of_length_eq_zero (Nat.le_zero.mp h₁)
    subst this
    cases fuel₂ <;> rfl
  | succ k ih =>
    intro fuel₂ l h₁ h₂
    cases l with
    | nil => cases fuel₂ <;> rfl
    | cons c cs =>
      cases fuel₂ with
      | zero => simp at h₂
      | succ m =>
        simp only [scanNumbersAux]
        by_cases hd : c.isDigit = true
        · simp only [if_pos hd]
          have hrest := matchStep_rest_length c cs hd
          have h₁' : (matchStep (c :: cs)).2.length ≤ k := by
            simp only [List.length_cons] at h₁; omega
          have h₂' : (matchStep (c :: cs)).2.length ≤ m := by
            simp only [List.length_cons] at h₂; omega
          rw [ih m _ h₁' h₂']
        · simp only [if_neg hd]
          have h₁' : cs.length ≤ k := by
            simp only [List.length_cons] at h₁; omega
          have h₂' : cs.length ≤ m := by
            simp only [List.length_cons] at h₂; omega
          exact ih m cs h₁' h₂'

/-- `scanNumbers` satisfies the natural recursion of the regex scan:
empty text scans to nothing. -/
theorem scanNumbers_nil : scanNumbers [] = [] := rfl

/-- At a digit, the scan emits the whole match and resumes after it. -/
theorem scanNumbers_cons_digit (c : Char) (cs : List Char) (h : c.isDigit = true) :
    scanNumbers (c :: cs) = (matchStep (c :: cs)).1 :: scanNumbers (matchStep (c :: cs)).2 := by
  show scanNumbersAux (cs.length + 1) (c :: cs) = _
  simp only [scanNumbersAux, if_pos h]
  rw [scanNumbersAux_fuel cs.length (matchStep (c :: cs)).2.length _
    (matchStep_rest_length c cs h) le_rfl]
  rfl

/-- At a non-digit, the scan skips one character. -/
theorem scanNumbers_cons_nondigit (c : Char) (cs : List Char) (h : ¬c.isDigit = true) :
    scanNumbers (c :: cs) = scanNumbers cs := by
  show scanNumbersAux (cs.length + 1) (c :: cs) = _
  simp only [scanNumbersAux, if_neg h]
  rfl

/-- Numeric value of an ASCII digit character. -/
def digitVal (c : Char) : ℕ := c.toNat - 48

/-- Left fold reading a digit string as a natural number. -/
def digitsToNat (l : List Char) : ℕ := l.foldl (fun a c => 10 * a + digitVal c) 0

/-- `parseFloat(num.replace(/,/g, ''))` on a matched substring: strip the
commas, then read the decimal literal `⟨int part⟩.⟨frac part⟩` exactly. -/
def parseNumber (s : List Char) : ℚ :=
  let t := s.filter (fun c => c ≠ ',')
  let ip := t.takeWhile (fun c => c ≠ '.')
  let fp := (t.dropWhile (fun c => c ≠ '.')).drop 1
  (digitsToNat ip : ℚ) + (digitsToNat fp : ℚ) / (10 : ℚ) ^ fp.length

/-- `extractNumbers(message)` from the source. -/
def extractNumbers (message : List Char) : List ℚ :=
  (scanNumbers message).map parseNumber

/-! ## Rounding to cents -/

/-- `Math.round(q * 100) / 100` — the source's rounding of monetary
outputs to cents (`Math.round x = ⌊x + 1/2⌋`). -/
def roundCents (q : ℚ) : ℚ := (((q * 100 + 1/2).floor : ℤ) : ℚ) / 100

theorem ratFloor_eq_intFloor (q : ℚ) : (Rat.floor q : ℤ) = ⌊q⌋ := by
  rw [Rat.floor_def', Rat.floor_def]

theorem roundCents_def (q : ℚ) : roundCents q = ((⌊q * 100 + 1/2⌋ : ℤ) : ℚ) / 100 := by
  rw [roundCents, ratFloor_eq_intFloor]

theorem roundCents_eq_of_bounds (q c : ℚ) (z : ℤ)
    (h1 : (z : ℚ) ≤ q * 100 + 1/2) (h2 : q * 100 + 1/2 < z + 1)
    (hc : (z : ℚ) / 100 = c) : roundCents q = c := by
  rw [roundCents_def, Int.floor_eq_iff.mpr ⟨h1, h2⟩, hc]

theorem roundCents_zero : roundCents 0 = 0 := by
  refine roundCents_eq_of_bounds 0 0 0 (by norm_num) (by norm_num) (by norm_num)

/-! ## Evaluation and sign helpers for parsed numbers -/

theorem parseNumber_eval (s : List Char) (a b k : ℕ)
    (ha : digitsToNat ((s.filter (fun c => c ≠ ',')).takeWhile (fun c => c ≠ '.')) = a)
    (hb : digitsToNat (((s.filter (fun c => c ≠ ',')).dropWhile (fun c => c ≠ '.')).drop 1) = b)
    (hk : (((s.filter (fun c => c ≠ ',')).dropWhile (fun c => c ≠ '.')).drop 1).length = k) :
    parseNumber s = (a : ℚ) + (b : ℚ) / (10 : ℚ) ^ k := by
  simp only [parseNumber]
  rw [ha, hb, hk]

theorem parseNumber_nonneg (s : List Char) : 0 ≤ parseNumber s := by
  simp only [parseNumber]
  positivity

/-- Every number the extractor produces is non-negative: each one is read
off a digit string (with an optional fractional digit string). -/
theorem extractNumbers_nonneg (message : List Char) :
    ∀ q ∈ extractNumbers message, 0 ≤ q := by
  intro q hq
  obtain ⟨s, _, rfl⟩ := List.mem_map.mp hq
  exact parseNumber_nonneg s

/-! ## The relevance gate (`validatePromptRelevance`) -/

/-- The fixed real-estate vocabulary of the relevance gate. -/
def propertyKeywords : List String :=
  ["property", "house", "home", "apartment", "condo", "real estate",
   "buy", "sell", "rent", "mortgage", "loan", "investment", "roi",
   "bedroom", "bathroom", "square feet", "price", "location",
   "neighborhood", "market", "listing", "agent", "broker"]

/-- The fixed redirect text returned for off-topic messages. -/
def redirectMessage : List Char :=
  ("I\x27m here to help with property investment and real estate questions. How can I assist you with property details, market analysis, or investment calculations?").toList

/-- Result record of `validatePromptRelevance`. -/
structure RelevanceResult where
  isValid : Bool
  relevanceScore : ℚ
  filteredContent : Option (List Char)
deriving DecidableEq, Repr

/-- `validatePromptRelevance(message)` from the source: count the
vocabulary keywords occurring in the lower-cased message; the message is
valid when at least one occurs, otherwise the redirect text is attached. -/
def validatePromptRelevance (message : List Char) : RelevanceResult :=
  let messageLower := lower message
  let relevantKeywords :=
    (propertyKeywords.filter (fun keyword => containsStr messageLower keyword)).length
  let isValid := 0 < relevantKeywords
  { isValid := isValid
    relevanceScore := (relevantKeywords : ℚ) / (propertyKeywords.length : ℚ)
    filteredContent := if isValid then none else some redirectMessage }

/-! ## Tool names and tool results -/

/-- The ten tool names, in the order the source constructor declares the
`mcpTools` registry. -/
inductive ToolName
  | validatePromptRelevance
  | searchPropertyInfo
  | getUserChatHistory
  | getPropertyDetails
  | getInterestRates
  | calculateMortgage
  | getUserSavedProperties
  | getServicedProperties
  | calculateMortgageAdvanced
  | getFinancialCalculator
deriving DecidableEq, Repr

/-- The registry key (the tool's name as a string), used in the
per-tool failure record `Failed to execute <name>`. -/
def toolNameString : ToolName → String
  | .validatePromptRelevance => "validatePromptRelevance"
  | .searchPropertyInfo => "searchPropertyInfo"
  | .getUserChatHistory => "getUserChatHistory"
  | .getPropertyDetails => "getPropertyDetails"
  | .getInterestRates => "getInterestRates"
  | .calculateMortgage => "calculateMortgage"
  | .getUserSavedProperties => "getUserSavedProperties"
  | .getServicedProperties => "getServicedProperties"
  | .calculateMortgageAdvanced => "calculateMortgageAdvanced"
  | .getFinancialCalculator => "getFinancialCalculator"

/-- The `mcpTools` registry keys in declaration order
(`AIService` constructor). -/
def mcpToolNames : List ToolName :=
  [.validatePromptRelevance, .searchPropertyInfo, .getUserChatHistory,
   .getPropertyDetails, .getInterestRates, .calculateMortgage,
   .getUserSavedProperties, .getServicedProperties,
   .calculateMortgageAdvanced, .getFinancialCalculator]

/-- The numeric fields of a basic mortgage result (`calculateMortgage`'s
success shape). -/
structure MortgageResult where
  propertyPrice : ℚ
  downPayment : ℚ
  loanAmount : ℚ
  interestRate : ℚ
  loanTermYears : ℕ
  monthlyPayment : ℚ
  totalCost : ℚ
  totalInterest : ℚ
deriving DecidableEq, Repr

/-- The `advancedDetails` block added by `calculateMortgageAdvanced`. -/
structure AdvancedDetails where
  downPaymentPercent : ℚ
  monthlyPmi : ℚ
  monthlyPropertyTax : ℚ
  monthlyInsurance : ℚ
  totalMonthlyPayment : ℚ
deriving DecidableEq, Repr

/-- `getFinancialCalculator`'s two success shapes. -/
inductive FinCalcResult
  | roi (initialInvestment annualReturn roiPercentage : ℚ)
  | capRate (annualIncome propertyValue capRatePercentage : ℚ)
deriving DecidableEq, Repr

/-- A tool's result record.  `error` is a record carrying only an `error`
field; the stub tools returning canned sample data are represented by
the parts of their output the pipeline reads (`searchPropertyInfo`'s
`totalResults`; the remaining canned listing fields are never consumed
by the verified pipeline logic). -/
inductive ToolResult
  | error (msg : List Char)
  | relevance (r : RelevanceResult)
  | mortgage (b : MortgageResult)
  | mortgageAdvanced (b : MortgageResult) (adv : AdvancedDetails)
  | financial (f : FinCalcResult)
  | interestRates (location : List Char) (currentRate : ℚ)
  | searchResults (totalResults : ℕ)
  | chatHistory
  | propertyDetails
  | savedProperties
  | servicedProperties
deriving DecidableEq, Repr

/-! ## The mortgage calculators -/

/-- The error text of `calculateMortgage` when fewer than two numbers are
extractable. -/
def mortgageErrorMessage : List Char :=
  ("Please provide property price and down payment for mortgage calculation").toList

/-- `numbers[2] || 7.2`: JavaScript's `||` falls through to the default on
any falsy value, so an absent third number (`undefined`) and a third
number equal to `0` both yield the 7.2 default. -/
def resolvedRate (numbers : List ℚ) : ℚ :=
  let n2 := (numbers[2]?).getD 0
  if n2 = 0 then 7.2 else n2

/-- `calculateMortgage(message)` from the source.  The zero-rate branch
(`monthlyPayment = loanAmount/numPayments`) is kept verbatim: over the
exact rationals the resolved rate is strictly positive, but the source
divides IEEE doubles, where a positive subnormal third number (truthy,
so `|| 7.2` does not fire) underflows to a zero monthly rate at the
`/100` step and reaches this branch — reachability of the branch is
therefore a floating-point question outside this embedding. -/
def calculateMortgage (message : List Char) : ToolResult :=
  let numbers := extractNumbers message
  if numbers.length < 2 then
    .error mortgageErrorMessage
  else
    let propertyPrice := (numbers[0]?).getD 0
    let downPayment := (numbers[1]?).getD 0
    let interestRate := resolvedRate numbers
    let loanTermYears : ℕ := 30
    let loanAmount := propertyPrice - downPayment
    let monthlyRate := interestRate / 100 / 12
    let numPayments : ℕ := loanTermYears * 12
    let monthlyPayment :=
      if 0 < monthlyRate then
        loanAmount * (monthlyRate * (1 + monthlyRate) ^ numPayments)
          / ((1 + monthlyRate) ^ numPayments - 1)
      else loanAmount / (numPayments : ℚ)
    .mortgage
      { propertyPrice := propertyPrice
        downPayment := downPayment
        loanAmount := loanAmount
        interestRate := interestRate
        loanTermYears := loanTermYears
        monthlyPayment := roundCents monthlyPayment
        totalCost := roundCents (monthlyPayment * (numPayments : ℚ))
        totalInterest := roundCents (monthlyPayment * (numPayments : ℚ) - loanAmount) }

/-- `calculateMortgageAdvanced(message)` from the source: run the basic
calculator, propagate its error unchanged, otherwise attach the
`advancedDetails` block. -/
def calculateMortgageAdvanced (message : List Char) : ToolResult :=
  match calculateMortgage message with
  | .error e => .error e
  | .mortgage basicCalc =>
    let downPaymentPercent := basicCalc.downPayment / basicCalc.propertyPrice * 100
    let monthlyPmi :=
      if downPaymentPercent < 20 then basicCalc.loanAmount * 0.5 / 100 / 12 else 0
    let monthlyPropertyTax := basicCalc.propertyPrice * 1.2 / 100 / 12
    let monthlyInsurance := basicCalc.propertyPrice * 0.4 / 100 / 12
    .mortgageAdvanced basicCalc
      { downPaymentPercent := roundCents downPaymentPercent
        monthlyPmi := roundCents monthlyPmi
        monthlyPropertyTax := roundCents monthlyPropertyTax
        monthlyInsurance := roundCents monthlyInsurance
        totalMonthlyPayment := roundCents
          (basicCalc.monthlyPayment + monthlyPmi + monthlyPropertyTax + monthlyInsurance) }
  | r => r

/-! ## The financial calculator and the interest-rate lookup -/

/-- The error text of `getFinancialCalculator`. -/
def finCalcErrorMessage : List Char :=
  ("Please specify calculation type (ROI or Cap Rate) with required numbers").toList

/-- `getFinancialCalculator(message)` from the source. -/
def getFinancialCalculator (message : List Char) : ToolResult :=
  let numbers := extractNumbers message
  let messageLower := lower message
  if containsStr messageLower "roi" && decide (2 ≤ numbers.length) then
    let initialInvestment := (numbers[0]?).getD 0
    let annualReturn := (numbers[1]?).getD 0
    .financial (.roi initialInvestment annualReturn
      (roundCents (annualReturn / initialInvestment * 100)))
  else if containsStr messageLower "cap rate" && decide (2 ≤ numbers.length) then
    let annualIncome := (numbers[0]?).getD 0
    let propertyValue := (numbers[1]?).getD 0
    .financial (.capRate annualIncome propertyValue
      (roundCents (annualIncome / propertyValue * 100)))
  else .error finCalcErrorMessage

/-- Fixed place-name list of `extractLocation`. -/
def commonLocations : List String :=
  ["downtown", "midtown", "uptown", "suburbs", "california", "texas",
   "florida", "new york", "chicago", "los angeles", "miami"]

/-- `location.charAt(0).toUpperCase() + location.slice(1)`. -/
def capitalizeWord : List Char → List Char
  | [] => []
  | c :: cs => c.toUpper :: cs

/-- `extractLocation(message)` from the source: the first fixed place name
occurring in the lower-cased message, capitalized. -/
def extractLocation (message : List Char) : Option (List Char) :=
  let messageLower := lower message
  (commonLocations.find? (fun loc => containsStr messageLower loc)).map
    (fun loc => capitalizeWord loc.toList)

/-- `getInterestRates(message)` from the source: the matched (or default)
location with the fixed current rate 7.2 (the fixed 3-point rate history
is additional canned data the pipeline never reads). -/
def getInterestRates (message : List Char) : ToolResult :=
  .interestRates ((extractLocation message).getD ("United States").toList) 7.2

/-! ## The keyword classifier (`determineRequiredTools`) -/

/-- The classifier's fixed keyword lists, per tool (empty for the tools
the classifier never selects). -/
def classifierKeywords : ToolName → List String
  | .searchPropertyInfo => ["find", "search", "show", "properties", "houses"]
  | .calculateMortgage => ["mortgage", "payment", "loan", "calculate"]
  | .getInterestRates => ["interest", "rate", "rates"]
  | .getFinancialCalculator => ["roi", "return", "investment", "cap rate"]
  | .getPropertyDetails => ["details", "information", "about property"]
  | _ => []

/-- `determineRequiredTools(message)` from the source: five independent
keyword checks, each pushing its tool, in the source's check order. -/
def determineRequiredTools (message : List Char) : List ToolName :=
  let messageLower := lower message
  (if containsAny messageLower (classifierKeywords .searchPropertyInfo)
    then [ToolName.searchPropertyInfo] else [])
  ++ (if containsAny messageLower (classifierKeywords .calculateMortgage)
    then [ToolName.calculateMortgage] else [])
  ++ (if containsAny messageLower (classifierKeywords .getInterestRates)
    then [ToolName.getInterestRates] else [])
  ++ (if containsAny messageLower (classifierKeywords .getFinancialCalculator)
    then [ToolName.getFinancialCalculator] else [])
  ++ (if containsAny messageLower (classifierKeywords .getPropertyDetails)
    then [ToolName.getPropertyDetails] else [])

/-! ## Number rendering (template literals and `toLocaleString`)

The fallback reply renders numbers with `Number.prototype.toLocaleString`
(default en-US `Intl.NumberFormat`: thousands grouping by commas, at most
three fraction digits, half-away-from-zero rounding) and with plain
template-literal stringification.  Every stringified value the pipeline
produces has at most two fraction digits (they are `roundCents` outputs or
the constant 7.2), so the three-digit cap is never hit by a reachable
value. -/

/-- Decimal digits of a natural number, most significant first (the fuel
equals the number itself, which is always enough since `n / 10 < n`). -/
def natDigitsAux : ℕ → ℕ → List Char
  | 0, _ => []
  | fuel + 1, n =>
    if n = 0 then []
    else natDigitsAux fuel (n / 10) ++ [Char.ofNat (48 + n % 10)]

/-- Decimal representation of a natural number. -/
def natToDigits (n : ℕ) : List Char :=
  if n = 0 then ['0'] else natDigitsAux (n + 1) n

/-- Insert a comma after every group of three digits, walking the reversed
digit string. -/
def groupAux : List Char → List Char
  | a :: b :: c :: d :: rest => a :: b :: c :: ',' :: groupAux (d :: rest)
  | l => l

/-- en-US thousands grouping of a digit string. -/
def groupDigits (ds : List Char) : List Char := (groupAux ds.reverse).reverse

/-- The three fraction digits of a milli-unit remainder, zero-padded. -/
def padDigits3 (n : ℕ) : List Char :=
  [Char.ofNat (48 + n / 100 % 10), Char.ofNat (48 + n / 10 % 10), Char.ofNat (48 + n % 10)]

/-- Drop trailing zero digits of a fraction part. -/
def trimZeros (l : List Char) : List Char :=
  (l.reverse.dropWhile (fun c => c = '0')).reverse

/-- Fraction rendering: nothing for a zero remainder, otherwise a dot and
the trimmed three-digit block. -/
def fracRender (n : ℕ) : List Char :=
  if n = 0 then [] else '.' :: trimZeros (padDigits3 n)

/-- `value.toLocaleString()` (default locale en-US): sign, grouped integer
digits, and at most three fraction digits, half-away-from-zero. -/
def renderLocale (q : ℚ) : List Char :=
  let milli : ℤ := Rat.floor (|q| * 1000 + 1/2)
  (if q < 0 then ['-'] else [])
    ++ groupDigits (natToDigits (milli / 1000).toNat)
    ++ fracRender (milli % 1000).toNat

/-- Plain template-literal stringification `${value}` (no grouping).  The
only value the pipeline feeds it is the constant rate 7.2, on which this
agrees with `Number.prototype.toString`. -/
def renderPlain (q : ℚ) : List Char :=
  let milli : ℤ := Rat.floor (|q| * 1000 + 1/2)
  (if q < 0 then ['-'] else [])
    ++ natToDigits (milli / 1000).toNat
    ++ fracRender (milli % 1000).toNat

/-! ## The tool registry and the per-tool execution loop -/

/-- The real tool implementations, keyed by registry name (the stub tools
return their canned shapes). -/
def runTool : ToolName → List Char → ToolResult
  | .validatePromptRelevance, message => .relevance (validatePromptRelevance message)
  | .searchPropertyInfo, _ => .searchResults 2
  | .getUserChatHistory, _ => .chatHistory
  | .getPropertyDetails, _ => .propertyDetails
  | .getInterestRates, message => getInterestRates message
  | .calculateMortgage, message => calculateMortgage message
  | .getUserSavedProperties, _ => .savedProperties
  | .getServicedProperties, _ => .servicedProperties
  | .calculateMortgageAdvanced, message => calculateMortgageAdvanced message
  | .getFinancialCalculator, message => getFinancialCalculator message

/-- The environment of one `processMessage` call: the external completion
endpoint (which may fail), the tool implementations as possibly-throwing
functions (`Except.error` models a thrown error; the default behaviour is
`Except.ok ∘ runTool`), and the wall-clock readings. -/
structure Env where
  chatCompletion : List Char → List (ToolName × ToolResult) → Except Unit (List Char)
  toolImpl : ToolName → List Char → Except Unit ToolResult
  timestamp : List Char
  executionTime : ℕ

/-- The catch around one tool invocation: a thrown failure is replaced by
the record `error: Failed to execute <name>` and processing continues. -/
def recoverToolFailure (t : ToolName) (e : Except Unit ToolResult) : ToolResult :=
  match e with
  | .ok r => r
  | .error _ => .error (("Failed to execute " ++ toolNameString t).toList)

/-- The source's tool loop (`for (const toolName of toolsToUse)` with the
`if (this.mcpTools[toolName])` registry check and the per-tool
try/catch), producing the `toolResults` association. -/
def execTools (impl : ToolName → List Char → Except Unit ToolResult)
    (tools : List ToolName) (message : List Char) : List (ToolName × ToolResult) :=
  tools.filterMap (fun t =>
    if t ∈ mcpToolNames then some (t, recoverToolFailure t (impl t message))
    else none)

/-- `toolResults[toolName]` on the association-list model. -/
def lookupTool (toolResults : List (ToolName × ToolResult)) (t : ToolName) :
    Option ToolResult :=
  (toolResults.find? (fun p => p.1 == t)).map Prod.snd

/-! ## The response composer -/

/-- The generic capability-description fallback, returned when no tool
results are available. -/
def genericMessage : List Char :=
  ("I\x27m here to help with your real estate questions. You can ask me about property searches, mortgage calculations, investment analysis, and current market rates.").toList

/-- The mortgage block of the deterministic fallback reply.  Included when
the `calculateMortgage` result is present without an `error` field; an
error record is skipped.  A result of any other shape would make the
source throw (`undefined.toLocaleString()` is a `TypeError`), modelled as
`Except.error`; no reachable tool result has such a shape under the
`calculateMortgage` key. -/
def fallbackMortgageSection : Option ToolResult → Except Unit (List Char)
  | none => .ok []
  | some (.error _) => .ok []
  | some (.mortgage b) => .ok
      (("For a $").toList ++ renderLocale b.propertyPrice
        ++ (" property with $").toList ++ renderLocale b.downPayment
        ++ (" down payment:\n").toList
        ++ ("- Monthly payment: $").toList ++ renderLocale b.monthlyPayment
        ++ ("\n").toList
        ++ ("- Total interest: $").toList ++ renderLocale b.totalInterest
        ++ ("\n\n").toList)
  | some (.mortgageAdvanced b _) => .ok
      (("For a $").toList ++ renderLocale b.propertyPrice
        ++ (" property with $").toList ++ renderLocale b.downPayment
        ++ (" down payment:\n").toList
        ++ ("- Monthly payment: $").toList ++ renderLocale b.monthlyPayment
        ++ ("\n").toList
        ++ ("- Total interest: $").toList ++ renderLocale b.totalInterest
        ++ ("\n\n").toList)
  | some _ => .error ()

/-- The property-count block of the fallback reply: included whenever a
`searchPropertyInfo` result is present (reading a missing `totalResults`
field of an unexpected shape renders `undefined`, as in the source). -/
def fallbackSearchSection : Option ToolResult → List Char
  | none => []
  | some (.searchResults n) =>
      ("Found ").toList ++ natToDigits n
        ++ (" properties matching your criteria.\n\n").toList
  | some _ =>
      ("Found undefined properties matching your criteria.\n\n").toList

/-- The interest-rate block of the fallback reply. -/
def fallbackRatesSection : Option ToolResult → List Char
  | none => []
  | some (.interestRates _ currentRate) =>
      ("Current interest rates: ").toList ++ renderPlain currentRate
        ++ ("%\n\n").toList
  | some _ =>
      ("Current interest rates: undefined%\n\n").toList

/-- `generateAIResponse(message, toolResults)` from the source: pass the
user message and the tool context to the completion endpoint; on its
failure, degrade to the deterministic templated reply assembled from the
successful tool results, or to the generic capability description when no
tool results are available.  (The endpoint is opaque: the system prompt,
the serialized non-error tool context and the model configuration are all
functions of the two arguments handed to `Env.chatCompletion`.) -/
def generateAIResponse (env : Env) (message : List Char)
    (toolResults : List (ToolName × ToolResult)) : Except Unit (List Char) :=
  match env.chatCompletion message toolResults with
  | .ok text => .ok text
  | .error _ =>
    if toolResults.isEmpty then .ok genericMessage
    else
      match fallbackMortgageSection (lookupTool toolResults .calculateMortgage) with
      | .error e => .error e
      | .ok mortgageSection => .ok
          (("Based on the available data:\n\n").toList
            ++ mortgageSection
            ++ fallbackSearchSection (lookupTool toolResults .searchPropertyInfo)
            ++ fallbackRatesSection (lookupTool toolResults .getInterestRates)
            ++ ("How else can I help you with your real estate needs?").toList)

/-- `extractPropertyData(toolResults)` from the source: the projection
keeping only search results, property details and the mortgage
calculation, or `null` when none is present. -/
def extractPropertyData (toolResults : List (ToolName × ToolResult)) :
    Option (List (ToolName × ToolResult)) :=
  let propertyData :=
    [ToolName.searchPropertyInfo, ToolName.getPropertyDetails,
     ToolName.calculateMortgage].filterMap
      (fun t => (lookupTool toolResults t).map (fun r => (t, r)))
  if propertyData.isEmpty then none else some propertyData

/-- The apology text of the composer's outermost catch. -/
def apologyMessage : List Char :=
  ("I apologize, but I encountered an error processing your request. Please try again.").toList

/-- The structured response record of `processMessage`. -/
structure ChatResponse where
  response : List Char
  sessionId : List Char
  timestamp : List Char
  toolsUsed : List ToolName
  propertyData : Option (List (ToolName × ToolResult))
  executionTime : ℕ
deriving DecidableEq, Repr

/-- `processMessage({message, sessionId, userId})` from the source:
relevance gate, classifier, tool loop, response generation, and the
outermost catch that converts any escaped failure into the apology
record. -/
def processMessage (env : Env) (message sessionId userId : List Char) : ChatResponse :=
  let isRelevant := validatePromptRelevance message
  if isRelevant.isValid then
    let toolsToUse := determineRequiredTools message
    let toolResults := execTools env.toolImpl toolsToUse message
    match generateAIResponse env message toolResults with
    | .ok aiResponse =>
      { response := aiResponse
        sessionId := sessionId
        timestamp := env.timestamp
        toolsUsed := ToolName.validatePromptRelevance :: toolsToUse
        propertyData := extractPropertyData toolResults
        executionTime := env.executionTime }
    | .error _ =>
      { response := apologyMessage
        sessionId := sessionId
        timestamp := env.timestamp
        toolsUsed := []
        propertyData := none
        executionTime := env.executionTime }
  else
    { response := isRelevant.filteredContent.getD []
      sessionId := sessionId
      timestamp := env.timestamp
      toolsUsed := [ToolName.validatePromptRelevance]
      propertyData := none
      executionTime := env.executionTime }

/-! ## Spec-side comparison definitions

These two definitions follow the specification's words (not the source)
and exist only to be compared with the source-derived functions above. -/

/-- The basic mortgage quote as the specification words it: standard
amortization `monthly = L*r*(1+r)^n / ((1+r)^n - 1)` with
`r = rate/100/12`, `n = 30*12`, `L = price - down`, and `monthly = L/n`
when `r = 0`; all monetary outputs rounded to cents. -/
def specMortgageQuote (price down rate : ℚ) : MortgageResult :=
  let L := price - down
  let r := rate / 100 / 12
  let n : ℕ := 360
  let monthly := if r = 0 then L / (n : ℚ) else L * r * (1 + r) ^ n / ((1 + r) ^ n - 1)
  { propertyPrice := price
    downPayment := down
    loanAmount := L
    interestRate := rate
    loanTermYears := 30
    monthlyPayment := roundCents monthly
    totalCost := roundCents (monthly * (n : ℚ))
    totalInterest := roundCents (monthly * (n : ℚ) - L) }

/-- The classifier output as the claim words it: the tools whose keyword
list matches, returned in registry-declaration order. -/
def registryOrderClassification (message : List Char) : List ToolName :=
  mcpToolNames.filter (fun t => containsAny (lower message) (classifierKeywords t))

/-- The classifier's actual check order (the order of the `push` calls in
`determineRequiredTools`). -/
def classifierCheckOrder : List ToolName :=
  [.searchPropertyInfo, .calculateMortgage, .getInterestRates,
   .getFinancialCalculator, .getPropertyDetails]

/-- Monthly-payment projection of a mortgage-shaped tool result. -/
def mortgagePayment : ToolResult → Option ℚ
  | .mortgage b => some b.monthlyPayment
  | .mortgageAdvanced b _ => some b.monthlyPayment
  | _ => none

/-- Loan-amount projection of a mortgage-shaped tool result. -/
def mortgageLoan : ToolResult → Option ℚ
  | .mortgage b => some b.loanAmount
  | .mortgageAdvanced b _ => some b.loanAmount
  | _ => none

/-! ## Shared lemmas about the mortgage tools -/

/-- The rate the basic mortgage tool resolves is always strictly
positive: the extractor only produces non-negative numbers, a nonzero
third number is therefore positive, and zero or absence falls through to
the 7.2 default. -/
theorem resolvedRate_pos (message : List Char) :
    0 < resolvedRate (extractNumbers message) := by
  unfold resolvedRate
  dsimp only
  split
  · norm_num
  · next hne =>
    rcases h2 : (extractNumbers message)[2]? with _ | q
    · simp [h2] at hne
    · simp only [h2, Option.getD_some] at hne ⊢
      have hq := extractNumbers_nonneg message q (List.getElem?_mem h2)
      exact lt_of_le_of_ne hq (Ne.symm hne)

/-- Concrete run of the extractor on a bare price/down-payment message. -/
theorem extract_mortgageExample :
    extractNumbers ("450000 90000").toList = [450000, 90000] := by
  unfold extractNumbers
  rw [show scanNumbers ("450000 90000").toList
      = [("450000").toList, ("90000").toList] from by decide]
  simp only [List.map]
  rw [parseNumber_eval _ 450000 0 0 (by decide) (by decide) (by decide),
    parseNumber_eval _ 90000 0 0 (by decide) (by decide) (by decide)]
  norm_num

/-- Concrete run of the extractor on the specification's example text. -/
theorem extract_dollarsExample :
    extractNumbers ("$450,000 with $90,000 down").toList = [450000, 90000] := by
  unfold extractNumbers
  rw [show scanNumbers ("$450,000 with $90,000 down").toList
      = [("450,000").toList, ("90,000").toList] from by decide]
  simp only [List.map]
  rw [parseNumber_eval _ 450000 0 0 (by decide) (by decide) (by decide),
    parseNumber_eval _ 90000 0 0 (by decide) (by decide) (by decide)]
  norm_num

/-- Concrete run of the extractor on the ROI example message. -/
theorem extract_roiExample :
    extractNumbers ("roi 100000 8000").toList = [100000, 8000] := by
  unfold extractNumbers
  rw [show scanNumbers ("roi 100000 8000").toList
      = [("100000").toList, ("8000").toList] from by decide]
  simp only [List.map]
  rw [parseNumber_eval _ 100000 0 0 (by decide) (by decide) (by decide),
    parseNumber_eval _ 8000 0 0 (by decide) (by decide) (by decide)]
  norm_num

/-- Concrete run of the extractor on the cap-rate example message. -/
theorem extract_capExample :
    extractNumbers ("cap rate 50000 600000").toList = [50000, 600000] := by
  unfold extractNumbers
  rw [show scanNumbers ("cap rate 50000 600000").toList
      = [("50000").toList, ("600000").toList] from by decide]
  simp only [List.map]
  rw [parseNumber_eval _ 50000 0 0 (by decide) (by decide) (by decide),
    parseNumber_eval _ 600000 0 0 (by decide) (by decide) (by decide)]
  norm_num

/-- With at least two extracted numbers, the source's mortgage tool
computes exactly the specification's quote, fed with the first two
numbers and the resolved rate. -/
theorem calculateMortgage_eq_specQuote (message : List Char)
    (h : 2 ≤ (extractNumbers message).length) :
    calculateMortgage message = .mortgage
      (specMortgageQuote (((extractNumbers message)[0]?).getD 0)
        (((extractNumbers message)[1]?).getD 0)
        (resolvedRate (extractNumbers message))) := by
  have hr := resolvedRate_pos message
  have hrr : 0 < resolvedRate (extractNumbers message) / 100 / 12 := by positivity
  unfold calculateMortgage specMortgageQuote
  dsimp only
  rw [if_neg (by omega : ¬(extractNumbers message).length < 2),
    if_pos hrr, if_neg (ne_of_gt hrr)]
  simp only [← mul_assoc]

/-! ## More shared helpers -/

/-- When every selected tool is a registry key (always true for
classifier output), the tool loop produces exactly one result per
selected tool, in order, recovering each thrown failure. -/
theorem execTools_eq_map (impl : ToolName → List Char → Except Unit ToolResult)
    (message : List Char) :
    ∀ tools : List ToolName, (∀ t ∈ tools, t ∈ mcpToolNames) →
      execTools impl tools message
        = tools.map (fun t => (t, recoverToolFailure t (impl t message))) := by
  intro tools
  induction tools with
  | nil => intro _; rfl
  | cons t ts ih =>
    intro hreg
    have ht : t ∈ mcpToolNames := hreg t (List.mem_cons_self _ _)
    have hts : ∀ x ∈ ts, x ∈ mcpToolNames :=
      fun x hx => hreg x (List.mem_cons_of_mem _ hx)
    simp only [execTools, List.filterMap_cons, if_pos ht, List.map_cons]
    exact congrArg _ (ih hts)

/-- The basic mortgage tool on the price/down-payment example message. -/
theorem calcMortgage_450k_quote :
    calculateMortgage ("450000 90000").toList
      = .mortgage (specMortgageQuote 450000 90000 7.2) := by
  have h : 2 ≤ (extractNumbers ("450000 90000").toList).length := by
    rw [extract_mortgageExample]; decide
  rw [calculateMortgage_eq_specQuote _ h, extract_mortgageExample]
  norm_num [resolvedRate]

/-- The example quote's monthly payment: the exact amortized payment on a
360000 loan at 7.2 percent over 360 months, rounded to cents, is
2443.64. -/
theorem specQuote_450k_payment :
    (specMortgageQuote 450000 90000 7.2).monthlyPayment = 61091/25 := by
  unfold specMortgageQuote
  dsimp only
  rw [if_neg (by norm_num : ¬((7.2 : ℚ)/100/12) = 0)]
  exact roundCents_eq_of_bounds _ _ 244364 (by norm_num) (by norm_num) (by norm_num)

/-- The example quote's loan amount. -/
theorem specQuote_450k_loan :
    (specMortgageQuote 450000 90000 7.2).loanAmount = 360000 := by
  unfold specMortgageQuote
  norm_num

/-- The ROI branch of the financial calculator. -/
theorem finCalc_roi_eval (message : List Char)
    (h1 : containsStr (lower message) "roi" = true)
    (h2 : 2 ≤ (extractNumbers message).length) :
    getFinancialCalculator message = .financial
      (.roi (((extractNumbers message)[0]?).getD 0) (((extractNumbers message)[1]?).getD 0)
        (roundCents ((((extractNumbers message)[1]?).getD 0)
          / (((extractNumbers message)[0]?).getD 0) * 100))) := by
  simp only [getFinancialCalculator, h1, Bool.true_and, decide_eq_true_eq]
  rw [if_pos h2]

/-- The cap-rate branch of the financial calculator. -/
theorem finCalc_capRate_eval (message : List Char)
    (h1 : containsStr (lower message) "roi" = false)
    (h2 : containsStr (lower message) "cap rate" = true)
    (h3 : 2 ≤ (extractNumbers message).length) :
    getFinancialCalculator message = .financial
      (.capRate (((extractNumbers message)[0]?).getD 0) (((extractNumbers message)[1]?).getD 0)
        (roundCents ((((extractNumbers message)[0]?).getD 0)
          / (((extractNumbers message)[1]?).getD 0) * 100))) := by
  simp only [getFinancialCalculator, h1, h2, Bool.false_and, Bool.true_and,
    decide_eq_true_eq, Bool.false_eq_true, if_false]
  rw [if_pos h3]

/-- Prepending digit-free text never changes the scanned matches. -/
theorem scanNumbers_append_nondigit :
    ∀ (pre message : List Char), (∀ c ∈ pre, c.isDigit = false) →
      scanNumbers (pre ++ message) = scanNumbers message := by
  intro pre
  induction pre with
  | nil => intro message _; rfl
  | cons c cs ih =>
    intro message h
    rw [List.cons_append,
      scanNumbers_cons_nondigit c _ (by simp [h c (List.mem_cons_self _ _)]),
      ih message (fun x hx => h x (List.mem_cons_of_mem _ hx))]

/-! ## Witness environments -/

/-- A concrete environment whose completion endpoint fails and whose tool
implementations are the real ones. -/
def witnessEnv : Env where
  chatCompletion := fun _ _ => .error ()
  toolImpl := fun t message => .ok (runTool t message)
  timestamp := ("2025-01-01T00:00:00.000Z").toList
  executionTime := 5

/-- A concrete environment in which every tool invocation throws. -/
def throwingEnv : Env where
  chatCompletion := fun _ _ => .error ()
  toolImpl := fun _ _ => .error ()
  timestamp := ("2025-01-01T00:00:00.000Z").toList
  executionTime := 5

/-! ## The claims -/

/-- C2: for every message in which zero keywords of the fixed real-estate
vocabulary occur (case-insensitive substring match), `processMessage`
short-circuits: it returns the fixed redirect text, reports only the
relevance gate in `toolsUsed`, and carries no property data.  The
equation holds for an arbitrary environment — the result does not depend
on the tool implementations or on the language-model endpoint, which is
the embedding of "invokes no tool and no language model". -/
theorem processMessage_offtopic_redirect (env : Env)
    (message sessionId userId : List Char)
    (h : ∀ kw ∈ propertyKeywords, containsStr (lower message) kw = false) :
    processMessage env message sessionId userId =
      { response := redirectMessage
        sessionId := sessionId
        timestamp := env.timestamp
        toolsUsed := [ToolName.validatePromptRelevance]
        propertyData := none
        executionTime := env.executionTime } := by
  have hfilter :
      propertyKeywords.filter (fun kw => containsStr (lower message) kw) = [] :=
    List.filter_eq_nil_iff.mpr (fun kw hkw => by simp [h kw hkw])
  have h1 : (validatePromptRelevance message).isValid = false := by
    simp [validatePromptRelevance, hfilter]
  have h2 : (validatePromptRelevance message).filteredContent = some redirectMessage := by
    simp [validatePromptRelevance, hfilter]
  unfold processMessage
  simp only [h1, h2, Bool.false_eq_true, if_false, Option.getD_some]

/-- Witness for C2 at the concrete message `hi`. -/
theorem processMessage_offtopic_redirect_witness :
    (∀ kw ∈ propertyKeywords, containsStr (lower ("hi").toList) kw = false) ∧
    processMessage witnessEnv ("hi").toList ("s1").toList ("u1").toList =
      { response := redirectMessage
        sessionId := ("s1").toList
        timestamp := witnessEnv.timestamp
        toolsUsed := [ToolName.validatePromptRelevance]
        propertyData := none
        executionTime := witnessEnv.executionTime } :=
  ⟨by decide, processMessage_offtopic_redirect witnessEnv _ _ _ (by decide)⟩

/-- C6: for every message with fewer than two extractable numbers, the
basic mortgage tool returns the error record (rather than raising — it is
a total function into `ToolResult`), and the advanced mortgage tool
returns that very record unchanged. -/
theorem mortgage_error_propagation (message : List Char)
    (h : (extractNumbers message).length < 2) :
    calculateMortgage message = .error mortgageErrorMessage ∧
    calculateMortgageAdvanced message = calculateMortgage message := by
  have hb : calculateMortgage message = .error mortgageErrorMessage := by
    unfold calculateMortgage
    dsimp only
    rw [if_pos h]
  refine ⟨hb, ?_⟩
  unfold calculateMortgageAdvanced
  rw [hb]

/-- Witness for C6 at the concrete message `hello`. -/
theorem mortgage_error_propagation_witness :
    (extractNumbers ("hello").toList).length < 2 ∧
    calculateMortgage ("hello").toList = .error mortgageErrorMessage ∧
    calculateMortgageAdvanced ("hello").toList = calculateMortgage ("hello").toList := by
  have h : (extractNumbers ("hello").toList).length < 2 := by
    unfold extractNumbers
    rw [show scanNumbers ("hello").toList = [] from by decide]
    decide
  exact ⟨h, mortgage_error_propagation ("hello").toList h⟩

/-- C7: the extractor returns the numbers of the text in reading order —
digit-free text contributes nothing (prepending it never changes the
result, and a digit-free message yields the empty sequence), and the
specification's example parses comma-grouped digits as single numbers,
in order of first appearance. -/
theorem extractNumbers_reading_order :
    (∀ message : List Char, (∀ c ∈ message, c.isDigit = false) →
      extractNumbers message = []) ∧
    (∀ pre message : List Char, (∀ c ∈ pre, c.isDigit = false) →
      extractNumbers (pre ++ message) = extractNumbers message) ∧
    extractNumbers ("$450,000 with $90,000 down").toList = [450000, 90000] := by
  have happ : ∀ pre message : List Char, (∀ c ∈ pre, c.isDigit = false) →
      extractNumbers (pre ++ message) = extractNumbers message := by
    intro pre message h
    unfold extractNumbers
    rw [scanNumbers_append_nondigit pre message h]
  refine ⟨?_, happ, extract_dollarsExample⟩
  intro message h
  have := happ message [] h
  rw [List.append_nil] at this
  rw [this]
  rfl

/-- Witness for C7 at the concrete digit-free message `abc`. -/
theorem extractNumbers_reading_order_witness :
    (∀ c ∈ ("abc").toList, c.isDigit = false) ∧
    extractNumbers ("abc").toList = [] :=
  ⟨by decide, extractNumbers_reading_order.1 ("abc").toList (by decide)⟩

/-- With at least two extracted numbers, the advanced mortgage tool
attaches the `advancedDetails` block to the basic quote. -/
theorem calculateMortgageAdvanced_eq (message : List Char) (b : MortgageResult)
    (hb : calculateMortgage message = .mortgage b) :
    calculateMortgageAdvanced message = .mortgageAdvanced b
      { downPaymentPercent := roundCents (b.downPayment / b.propertyPrice * 100)
        monthlyPmi := roundCents (if b.downPayment / b.propertyPrice * 100 < 20
          then b.loanAmount * 0.5 / 100 / 12 else 0)
        monthlyPropertyTax := roundCents (b.propertyPrice * 1.2 / 100 / 12)
        monthlyInsurance := roundCents (b.propertyPrice * 0.4 / 100 / 12)
        totalMonthlyPayment := roundCents (b.monthlyPayment
          + (if b.downPayment / b.propertyPrice * 100 < 20
            then b.loanAmount * 0.5 / 100 / 12 else 0)
          + b.propertyPrice * 1.2 / 100 / 12 + b.propertyPrice * 0.4 / 100 / 12) } := by
  unfold calculateMortgageAdvanced
  rw [hb]

/-- C4: for every message with at least two extractable numbers, the
advanced mortgage result's PMI is 0 exactly when the down-payment
percentage `down/price*100` is at least 20, and is the loan amount times
0.5 percent, divided by 12 and rounded to cents, when that percentage is
below 20. -/
theorem mortgageAdvanced_pmi_invariant (message : List Char)
    (h : 2 ≤ (extractNumbers message).length) :
    ∃ b adv, calculateMortgageAdvanced message = .mortgageAdvanced b adv ∧
      (20 ≤ b.downPayment / b.propertyPrice * 100 → adv.monthlyPmi = 0) ∧
      (b.downPayment / b.propertyPrice * 100 < 20 →
        adv.monthlyPmi = roundCents (b.loanAmount * 0.5 / 100 / 12)) := by
  have hb := calculateMortgage_eq_specQuote message h
  refine ⟨_, _, calculateMortgageAdvanced_eq message _ hb, ?_, ?_⟩
  · intro hge
    dsimp only
    rw [if_neg (not_lt.mpr hge), roundCents_zero]
  · intro hlt
    dsimp only
    rw [if_pos hlt]

/-- Witness for C4 at the concrete message `450000 90000` (a 20 percent
down payment, so the PMI is 0). -/
theorem mortgageAdvanced_pmi_invariant_witness :
    2 ≤ (extractNumbers ("450000 90000").toList).length ∧
    ∃ b adv, calculateMortgageAdvanced ("450000 90000").toList = .mortgageAdvanced b adv ∧
      (20 ≤ b.downPayment / b.propertyPrice * 100 → adv.monthlyPmi = 0) ∧
      (b.downPayment / b.propertyPrice * 100 < 20 →
        adv.monthlyPmi = roundCents (b.loanAmount * 0.5 / 100 / 12)) :=
  ⟨by rw [extract_mortgageExample]; decide,
    mortgageAdvanced_pmi_invariant ("450000 90000").toList
      (by rw [extract_mortgageExample]; decide)⟩

/-- C5: the financial calculator dispatches on the substrings `roi` and
`cap rate` of the lower-cased message, each branch requiring at least two
extracted numbers; the ROI branch reports `annualReturn/initialInvestment
*100` rounded to two decimals (8 on the 100000/8000 example), the
cap-rate branch reports `annualIncome/propertyValue*100` rounded to two
decimals (8.33 on the 50000/600000 example), and an error record results
when neither keyword occurs or fewer than two numbers are present. -/
theorem financialCalculator_dispatch (message : List Char) :
    (containsStr (lower message) "roi" = true → 2 ≤ (extractNumbers message).length →
      getFinancialCalculator message = .financial
        (.roi (((extractNumbers message)[0]?).getD 0) (((extractNumbers message)[1]?).getD 0)
          (roundCents ((((extractNumbers message)[1]?).getD 0)
            / (((extractNumbers message)[0]?).getD 0) * 100)))) ∧
    (containsStr (lower message) "roi" = false →
      containsStr (lower message) "cap rate" = true →
      2 ≤ (extractNumbers message).length →
      getFinancialCalculator message = .financial
        (.capRate (((extractNumbers message)[0]?).getD 0) (((extractNumbers message)[1]?).getD 0)
          (roundCents ((((extractNumbers message)[0]?).getD 0)
            / (((extractNumbers message)[1]?).getD 0) * 100)))) ∧
    ((containsStr (lower message) "roi" = false ∧
        containsStr (lower message) "cap rate" = false) ∨
      (extractNumbers message).length < 2 →
      getFinancialCalculator message = .error finCalcErrorMessage) ∧
    getFinancialCalculator ("roi 100000 8000").toList = .financial (.roi 100000 8000 8) ∧
    getFinancialCalculator ("cap rate 50000 600000").toList
      = .financial (.capRate 50000 600000 (833/100)) := by
  refine ⟨finCalc_roi_eval message, finCalc_capRate_eval message, ?_, ?_, ?_⟩
  · rintro (⟨hr, hc⟩ | hlen)
    · simp [getFinancialCalculator, hr, hc]
    · have hd : decide (2 ≤ (extractNumbers message).length) = false :=
        decide_eq_false (by omega)
      simp [getFinancialCalculator, hd]
  · rw [finCalc_roi_eval ("roi 100000 8000").toList (by decide)
      (by rw [extract_roiExample]; decide)]
    rw [extract_roiExample]
    norm_num
    exact roundCents_eq_of_bounds _ _ 800 (by norm_num) (by norm_num) (by norm_num)
  · rw [finCalc_capRate_eval ("cap rate 50000 600000").toList (by decide) (by decide)
      (by rw [extract_capExample]; decide)]
    rw [extract_capExample]
    norm_num
    exact roundCents_eq_of_bounds _ _ 833 (by norm_num) (by norm_num) (by norm_num)

/-- Witness for C5: the ROI branch applied to the concrete ROI example. -/
theorem financialCalculator_dispatch_witness :
    containsStr (lower ("roi 100000 8000").toList) "roi" = true ∧
    2 ≤ (extractNumbers ("roi 100000 8000").toList).length ∧
    getFinancialCalculator ("roi 100000 8000").toList = .financial (.roi 100000 8000 8) :=
  ⟨by decide, by rw [extract_roiExample]; decide,
    (financialCalculator_dispatch ("roi 100000 8000").toList).2.2.2.1⟩

/-- C8 counterexample: on the message `mortgage details` both the
mortgage and the property-details tools match, and the classifier
returns them in its check order `calculateMortgage, getPropertyDetails`,
which differs from the registry-declaration order (the registry declares
`getPropertyDetails` before `calculateMortgage`). -/
theorem classifier_order_counterexample :
    determineRequiredTools ("mortgage details").toList
      = [ToolName.calculateMortgage, ToolName.getPropertyDetails] ∧
    registryOrderClassification ("mortgage details").toList
      = [ToolName.getPropertyDetails, ToolName.calculateMortgage] ∧
    determineRequiredTools ("mortgage details").toList
      ≠ registryOrderClassification ("mortgage details").toList := by decide

/-- C8 (amended): the classifier returns exactly the tools whose fixed
keyword list has a substring match in the lower-cased message, with no
mutual exclusion; when several match they are returned in the
classifier's fixed check order (`searchPropertyInfo, calculateMortgage,
getInterestRates, getFinancialCalculator, getPropertyDetails`), not in
registry-declaration order. -/
theorem classifier_membership_and_check_order (message : List Char) :
    (∀ t : ToolName, t ∈ determineRequiredTools message ↔
      containsAny (lower message) (classifierKeywords t) = true) ∧
    determineRequiredTools message = classifierCheckOrder.filter
      (fun t => containsAny (lower message) (classifierKeywords t)) := by
  have hmain : determineRequiredTools message = classifierCheckOrder.filter
      (fun t => containsAny (lower message) (classifierKeywords t)) := by
    unfold determineRequiredTools classifierCheckOrder
    simp only [List.filter_cons, List.filter_nil]
    cases h1 : containsAny (lower message) (classifierKeywords .searchPropertyInfo) <;>
      cases h2 : containsAny (lower message) (classifierKeywords .calculateMortgage) <;>
      cases h3 : containsAny (lower message) (classifierKeywords .getInterestRates) <;>
      cases h4 : containsAny (lower message) (classifierKeywords .getFinancialCalculator) <;>
      cases h5 : containsAny (lower message) (classifierKeywords .getPropertyDetails) <;>
      simp
  refine ⟨?_, hmain⟩
  intro t
  rw [hmain]
  cases t <;>
    simp [classifierCheckOrder, List.mem_filter, classifierKeywords, containsAny]

/-- C3 counterexample: on a message whose extracted numbers are
450000 and 90000, the basic mortgage tool's monthly payment is exactly
2443.64 (= 61091/25), which is not within 0.05 of the claimed 2443.90. -/
theorem mortgageExample_payment_not_2443_90 :
    mortgagePayment (calculateMortgage ("450000 90000").toList) = some (61091/25) ∧
    ¬(|(61091/25 : ℚ) - 2443.90| ≤ 0.05) := by
  constructor
  · rw [calcMortgage_450k_quote]
    unfold mortgagePayment
    dsimp only
    rw [specQuote_450k_payment]
  · have hd : (61091/25 : ℚ) - 2443.90 = -(13/50) := by norm_num
    rw [hd, abs_neg, abs_of_nonneg (by norm_num : (0:ℚ) ≤ 13/50)]
    norm_num

/-- C3 (amended): for every message with at least two extractable
numbers, the basic mortgage tool takes the first as price and the second
as down payment, resolves the rate from the third number (defaulting to
7.2 when it is absent or zero), fixes the term at 30 years, and returns
the specification's amortized quote with all monetary outputs rounded to
cents; on the 450000/90000 example the loan amount is 360000 and the
monthly payment is 2443.64 (not 2443.90). -/
theorem calculateMortgage_formula_and_example :
    (∀ message : List Char, 2 ≤ (extractNumbers message).length →
      calculateMortgage message = .mortgage
        (specMortgageQuote (((extractNumbers message)[0]?).getD 0)
          (((extractNumbers message)[1]?).getD 0)
          (resolvedRate (extractNumbers message)))) ∧
    mortgageLoan (calculateMortgage ("450000 90000").toList) = some 360000 ∧
    mortgagePayment (calculateMortgage ("450000 90000").toList) = some 2443.64 := by
  refine ⟨calculateMortgage_eq_specQuote, ?_, ?_⟩
  · rw [calcMortgage_450k_quote]
    unfold mortgageLoan
    dsimp only
    rw [specQuote_450k_loan]
  · rw [calcMortgage_450k_quote]
    unfold mortgagePayment
    dsimp only
    rw [specQuote_450k_payment]
    norm_num

/-- Witness for C3 (amended) at the concrete example message. -/
theorem calculateMortgage_formula_and_example_witness :
    2 ≤ (extractNumbers ("450000 90000").toList).length ∧
    calculateMortgage ("450000 90000").toList = .mortgage
      (specMortgageQuote (((extractNumbers ("450000 90000").toList)[0]?).getD 0)
        (((extractNumbers ("450000 90000").toList)[1]?).getD 0)
        (resolvedRate (extractNumbers ("450000 90000").toList))) :=
  ⟨by rw [extract_mortgageExample]; decide,
    calculateMortgage_formula_and_example.1 ("450000 90000").toList
      (by rw [extract_mortgageExample]; decide)⟩

/-- C9: when the completion endpoint fails, the composer's fallback is
deterministic and never raises: with no tool results it is the generic
capability description; with a successful basic-mortgage result it
contains that result's monthly payment, rendered exactly as the source
renders it (`toLocaleString`), as a substring; and for every
mortgage-slot shape the pipeline can actually produce (absent, error
record, basic or advanced quote) the fallback returns a reply. -/
theorem generateAIResponse_fallback_spec (env : Env) (message : List Char)
    (toolResults : List (ToolName × ToolResult))
    (hfail : env.chatCompletion message toolResults = .error ()) :
    (toolResults = [] → generateAIResponse env message toolResults = .ok genericMessage) ∧
    (∀ b : MortgageResult,
      lookupTool toolResults ToolName.calculateMortgage = some (.mortgage b) →
      ∃ text, generateAIResponse env message toolResults = .ok text ∧
        renderLocale b.monthlyPayment <:+: text) ∧
    ((lookupTool toolResults ToolName.calculateMortgage = none ∨
      (∃ e, lookupTool toolResults ToolName.calculateMortgage = some (.error e)) ∨
      (∃ b, lookupTool toolResults ToolName.calculateMortgage = some (.mortgage b)) ∨
      (∃ b adv, lookupTool toolResults ToolName.calculateMortgage
        = some (.mortgageAdvanced b adv))) →
      ∃ text, generateAIResponse env message toolResults = .ok text) := by
  unfold generateAIResponse
  rw [hfail]
  refine ⟨?_, ?_, ?_⟩
  · intro h
    subst h
    rfl
  · intro b hb
    have hemp : toolResults.isEmpty = false := by
      cases toolResults with
      | nil => simp [lookupTool] at hb
      | cons p ps => rfl
    rw [hemp]
    dsimp only [Bool.false_eq_true, if_false]
    rw [hb]
    unfold fallbackMortgageSection
    refine ⟨_, rfl, ?_⟩
    refine ⟨("Based on the available data:\n\n").toList ++ ("For a $").toList
      ++ renderLocale b.propertyPrice ++ (" property with $").toList
      ++ renderLocale b.downPayment ++ (" down payment:\n").toList
      ++ ("- Monthly payment: $").toList,
      ("\n").toList ++ ("- Total interest: $").toList ++ renderLocale b.totalInterest
      ++ ("\n\n").toList
      ++ fallbackSearchSection (lookupTool toolResults .searchPropertyInfo)
      ++ fallbackRatesSection (lookupTool toolResults .getInterestRates)
      ++ ("How else can I help you with your real estate needs?").toList, ?_⟩
    simp [List.append_assoc]
  · intro h
    cases hemp : toolResults.isEmpty with
    | true => exact ⟨_, rfl⟩
    | false =>
      dsimp only [Bool.false_eq_true, if_false]
      rcases h with h | ⟨e, h⟩ | ⟨b, h⟩ | ⟨b, adv, h⟩ <;>
        rw [h] <;> exact ⟨_, rfl⟩

/-- A concrete successful basic-mortgage quote used by the C9 witness. -/
def witnessQuote : MortgageResult :=
  { propertyPrice := 450000, downPayment := 90000, loanAmount := 360000,
    interestRate := 7.2, loanTermYears := 30, monthlyPayment := 61091/25,
    totalCost := 21992738/25, totalInterest := 12992738/25 }

/-- Witness for C9: a failing endpoint with a successful mortgage result
produces a reply containing the rendered monthly payment. -/
theorem generateAIResponse_fallback_spec_witness :
    ∃ text, generateAIResponse witnessEnv ("calculate mortgage").toList
        [(ToolName.calculateMortgage, ToolResult.mortgage witnessQuote)] = .ok text ∧
      renderLocale witnessQuote.monthlyPayment <:+: text :=
  (generateAIResponse_fallback_spec witnessEnv ("calculate mortgage").toList
    [(ToolName.calculateMortgage, ToolResult.mortgage witnessQuote)] rfl).2.1
    witnessQuote rfl

/-- C1: `processMessage` never raises to its caller — it is a total
function into the response-record type for every environment, including
ones whose tools throw and whose completion endpoint fails, and every
branch produces a well-formed record carrying the caller's session id.
Moreover the tool loop is failure-isolating: it produces exactly one
result per selected tool, in order, and a tool whose invocation throws
contributes the record `error: Failed to execute <name>` while every
remaining selected tool is still invoked. -/
theorem processMessage_total_and_isolated (env : Env)
    (impl : ToolName → List Char → Except Unit ToolResult)
    (message sessionId userId : List Char) (tools : List ToolName)
    (hreg : ∀ t ∈ tools, t ∈ mcpToolNames) :
    (processMessage env message sessionId userId).sessionId = sessionId ∧
    execTools impl tools message
      = tools.map (fun t => (t, recoverToolFailure t (impl t message))) ∧
    (∀ t ∈ tools, impl t message = .error () →
      (t, ToolResult.error (("Failed to execute " ++ toolNameString t).toList))
        ∈ execTools impl tools message) := by
  have hmap := execTools_eq_map impl message tools hreg
  refine ⟨?_, hmap, ?_⟩
  · unfold processMessage
    dsimp only
    split
    · split <;> rfl
    · rfl
  · intro t ht herr
    rw [hmap]
    refine List.mem_map.mpr ⟨t, ht, ?_⟩
    show (t, recoverToolFailure t (impl t message)) = _
    rw [herr]
    rfl

/-- A tool implementation in which every invocation throws. -/
def throwingImpl : ToolName → List Char → Except Unit ToolResult :=
  fun _ _ => .error ()

/-- Witness for C1: with every tool throwing, the loop still reports one
error record per selected tool, and `processMessage` still returns a
record with the caller's session id. -/
theorem processMessage_total_and_isolated_witness :
    (∀ t ∈ [ToolName.calculateMortgage, ToolName.getInterestRates],
      t ∈ mcpToolNames) ∧
    ((processMessage throwingEnv ("mortgage rates 1 2").toList ("s2").toList
        ("u2").toList).sessionId = ("s2").toList ∧
      execTools throwingImpl
          [ToolName.calculateMortgage, ToolName.getInterestRates]
          ("mortgage rates 1 2").toList
        = [ToolName.calculateMortgage, ToolName.getInterestRates].map
            (fun t => (t, recoverToolFailure t
              (throwingImpl t ("mortgage rates 1 2").toList))) ∧
      (∀ t ∈ [ToolName.calculateMortgage, ToolName.getInterestRates],
        throwingImpl t ("mortgage rates 1 2").toList = .error () →
        (t, ToolResult.error (("Failed to execute " ++ toolNameString t).toList))
          ∈ execTools throwingImpl
              [ToolName.calculateMortgage, ToolName.getInterestRates]
              ("mortgage rates 1 2").toList)) :=
  ⟨by decide,
    processMessage_total_and_isolated throwingEnv throwingImpl
      ("mortgage rates 1 2").toList ("s2").toList ("u2").toList
      [ToolName.calculateMortgage, ToolName.getInterestRates] (by decide)⟩
